import Mathlib

/-!
Verification of the `hy` CLI (Hypewell Studio command-line client).

This file shallowly embeds the command handlers and helper functions of the
repository in Lean and proves or refutes the specification claims about them.

Modelling conventions:
* Machine integers (`int64`) are embedded as `Int`; byte counts that the code
  divides are non-negative in every claim considered.
* Strings are Lean `String`s (lists of characters).  The Go code indexes and
  slices strings byte-wise; every concrete input in the claims is ASCII, where
  byte positions and character positions coincide.
* The network is an oracle: each handler receives the outcome of the HTTP
  call(s) it would perform (`HttpOutcome`), and records every request it
  issues in the order the Go code issues them.  JSON decoding of response
  bodies is likewise an oracle: a handler receives the decoded value as a
  parameter (the Go code either checks the decode error, modelled with
  `Except`, or ignores it, modelled by a total parameter whose value is the
  zero value of the struct on a failed decode).
* `fmt.Printf`/`Println` output is collected as a list of output strings;
  `tabwriter` column padding is abstracted away, the tab-separated cell
  contents are kept verbatim.
* A cobra `RunE` handler that returns `nil` makes the process exit with code
  0; returning an error makes it exit non-zero.  The `err` field of a run
  outcome is that returned error (`none` = exit code 0).
-/

/-- Models Go `strings.ToLower` (restricted to the ASCII range exercised by
the claims; `Char.toLower` lowers exactly the ASCII uppercase letters). -/
def strToLower (s : String) : String := ⟨s.data.map Char.toLower⟩

/-- Models Go `strings.HasPrefix s pre`. -/
def strStarts (s pre : String) : Bool := pre.data.isPrefixOf s.data

/-- Models Go `strings.TrimSpace` (leading and trailing whitespace removed). -/
def trimSpace (s : String) : String :=
  ⟨((s.data.dropWhile Char.isWhitespace).reverse.dropWhile Char.isWhitespace).reverse⟩

/-- Models Go string slicing `s[:n]` (well-defined in Go only for
`n ≤ len(s)`; callers of this helper establish that bound). -/
def strTake (s : String) (n : Nat) : String := ⟨s.data.take n⟩

/-- Models Go string slicing `s[n:]`. -/
def strDrop (s : String) (n : Nat) : String := ⟨s.data.drop n⟩

/-! ## `formatBytes` (src/cmd/assets.go)

```go
func formatBytes(bytes int64) string {
    const unit = 1024
    if bytes < unit { return fmt.Sprintf("%d B", bytes) }
    div, exp := int64(unit), 0
    for n := bytes / unit; n >= unit; n /= unit { div *= unit; exp++ }
    return fmt.Sprintf("%.1f %cB", float64(bytes)/float64(div), "KMGTPE"[exp])
}
```
-/

/-- The `exp` computed by the `for` loop of `formatBytes`, as a function of
the loop's initial value `n = bytes / 1024`. -/
def expLoop (n : Nat) : Nat :=
  if h : 1024 ≤ n then expLoop (n / 1024) + 1 else 0
termination_by n
decreasing_by
  exact Nat.div_lt_self (by omega) (by omega)

/-- Rounding to the nearest integer, ties to even: this is exactly how Go's
`strconv` fixed-precision decimal conversion rounds the mathematically exact
value of a `float64`. -/
def roundHalfEven (num den : Nat) : Nat :=
  let q := num / den
  let r := num % den
  if 2 * r < den then q
  else if den < 2 * r then q + 1
  else if q % 2 = 0 then q else q + 1

/-- Models Go `fmt.Sprintf("%.1f", float64(num)/float64(den))` for `den` a
power of two and `num < 2^53`: the conversion `float64(num)` and the division
by a power of two are exact in IEEE double precision there, and Go prints the
exact binary value rounded to one decimal digit, ties to even.  Every input
the claims evaluate lies in that exact range. -/
def fmtOneDecimal (num den : Nat) : String :=
  let t := roundHalfEven (10 * num) den
  toString (t / 10) ++ "." ++ toString (t % 10)

/-- Index of the displayed unit of `formatBytes`: `0` for `B`, `e + 1` for
`"KMGTPE"[e] ++ "B"`. -/
def unitIndex (bytes : Int) : Nat :=
  if bytes < 1024 then 0 else expLoop (bytes.toNat / 1024) + 1

/-- The displayed units of `formatBytes`, indexed by `unitIndex`. -/
def unitNames : List String := ["B", "KB", "MB", "GB", "TB", "PB", "EB"]

/-- `formatBytes` from src/cmd/assets.go. -/
def formatBytes (bytes : Int) : String :=
  if bytes < 1024 then toString bytes ++ " B"
  else
    let e := expLoop (bytes.toNat / 1024)
    fmtOneDecimal bytes.toNat (1024 ^ (e + 1)) ++ " "
      ++ ("KMGTPE".toList.getD e '?').toString ++ "B"

/-! ## MIME detection (src/cmd/assets.go) -/

/-- Models Go `filepath.Ext`: the suffix of the final path element starting
at its last dot, or `""` when the final element has no dot.  `extRevAux`
scans the reversed character list, accumulating characters until it meets
the dot (returning the dot and the accumulated suffix) or a path separator
or the start of the string (returning nothing). -/
def extRevAux : List Char → List Char → List Char
  | [], _ => []
  | c :: rest, acc =>
    if c = '/' then []
    else if c = '.' then c :: acc
    else extRevAux rest (c :: acc)

/-- Go `filepath.Ext filePath`. -/
def fileExt (p : String) : String := ⟨extRevAux p.data.reverse []⟩

/-- The static extension table of `detectMimeType`. -/
def mimeTypes : List (String × String) :=
  [(".mp4", "video/mp4"),
   (".mov", "video/quicktime"),
   (".avi", "video/x-msvideo"),
   (".webm", "video/webm"),
   (".jpg", "image/jpeg"),
   (".jpeg", "image/jpeg"),
   (".png", "image/png"),
   (".gif", "image/gif"),
   (".webp", "image/webp"),
   (".mp3", "audio/mpeg"),
   (".wav", "audio/wav"),
   (".m4a", "audio/mp4"),
   (".aac", "audio/aac"),
   (".ttf", "font/ttf"),
   (".otf", "font/otf"),
   (".woff", "font/woff"),
   (".woff2", "font/woff2")]

/-- `detectMimeType` from src/cmd/assets.go: table lookup on the lowercased
extension, `"application/octet-stream"` when absent. -/
def detectMimeType (filePath : String) : String :=
  let ext := strToLower (fileExt filePath)
  match mimeTypes.lookup ext with
  | some mime => mime
  | none => "application/octet-stream"

/-- `detectAssetType` from src/cmd/assets.go. -/
def detectAssetType (mimeType : String) : String :=
  if strStarts mimeType "video/" then "video"
  else if strStarts mimeType "image/" then "image"
  else if strStarts mimeType "audio/" then "audio"
  else if strStarts mimeType "font/" then "font"
  else "video"

/-! ## Credential resolution and `auth` commands (src/cmd/auth.go) -/

/-- The state `GetAPIKey` reads: the `HY_API_KEY` environment variable
(`os.Getenv` returns `""` when unset), the OS keyring entry (`none` models a
`keyring.Get` error, `some v` a successful lookup returning `v`), and the
config-file value `viper.GetString "api_key"`. -/
structure AuthEnv where
  hyApiKeyEnv : String
  keyringGet : Option String
  configApiKey : String
deriving DecidableEq

/-- `GetAPIKey` from src/cmd/auth.go: environment first when non-empty, then
the keyring whenever the lookup succeeds, then the config value. -/
def GetAPIKey (e : AuthEnv) : String :=
  if e.hyApiKeyEnv ≠ "" then e.hyApiKeyEnv
  else
    match e.keyringGet with
    | some key => key
    | none => e.configApiKey

/-- First non-empty string of a list, `""` when none exists. -/
def firstNonEmpty : List String → String
  | [] => ""
  | s :: rest => if s ≠ "" then s else firstNonEmpty rest

/-- The spec's words for apiKey resolution ("environment variable override →
secure secret store lookup → config-file fallback value. First non-empty
wins"), stated as a function, to be compared with `GetAPIKey`. -/
def resolveApiKeySpecModel (e : AuthEnv) : String :=
  firstNonEmpty [e.hyApiKeyEnv, e.keyringGet.getD "", e.configApiKey]

/-- Outcome of running a command that may hit a Go runtime panic. -/
inductive RunOutcome where
  | panicked (msg : String)
  | finished (printed : List String) (err : Option String)
deriving DecidableEq

def sliceOutOfRangeMsg : String := "slice bounds out of range"

/-- `authStatusCmd` from src/cmd/auth.go, as a function of the resolved
apiKey, workspaceID and apiURL.  The redaction
`apiKey[:12] + "..." + apiKey[len(apiKey)-4:]` is Go string slicing:
`apiKey[:12]` panics at runtime unless `12 ≤ len(apiKey)` (and `12 ≤ len`
also makes `apiKey[len-4:]` safe), so the non-empty short-key case is a
panic, not an error return. -/
def authStatusRun (apiKey workspaceID apiURL : String) : RunOutcome :=
  if apiKey = "" then
    .finished ["Not authenticated", "Run 'hy auth login' to authenticate"] none
  else if 12 ≤ apiKey.length then
    let redacted := strTake apiKey 12 ++ "..." ++ strDrop apiKey (apiKey.length - 4)
    .finished
      ["API Key: " ++ redacted,
       "Workspace: " ++ workspaceID,
       "API URL: " ++ apiURL] none
  else .panicked sliceOutOfRangeMsg

/-- Result of `authLoginCmd`.  The three `…Written` fields record the value
passed to `keyring.Set`, `viper.Set "api_key"` and `viper.Set "workspace_id"`
respectively (`none` = that store was never written). -/
structure LoginOut where
  printed : List String
  err : Option String
  keyringWritten : Option String
  configApiKeyWritten : Option String
  configWorkspaceWritten : Option String
deriving DecidableEq

/-- `authLoginCmd` from src/cmd/auth.go.  `keyInput` and `wsInput` are the
two lines read from standard input; `keyringSetOk` is whether `keyring.Set`
succeeds; `writeConfigOk` and `safeWriteOk` are whether `viper.WriteConfig`
and the fallback `viper.SafeWriteConfig` succeed. -/
def authLoginRun (keyInput wsInput : String)
    (keyringSetOk writeConfigOk safeWriteOk : Bool) : LoginOut :=
  let keyPrompt := "Enter API key (sk_live_...): "
  let wsPrompt := "Enter workspace ID (ws_...): "
  let apiKey := trimSpace keyInput
  if strStarts apiKey "sk_live_" = false then
    { printed := [keyPrompt],
      err := some "invalid API key format (should start with sk_live_)",
      keyringWritten := none, configApiKeyWritten := none,
      configWorkspaceWritten := none }
  else
    let workspaceID := trimSpace wsInput
    if strStarts workspaceID "ws_" = false then
      { printed := [keyPrompt, wsPrompt],
        err := some "invalid workspace ID format (should start with ws_)",
        keyringWritten := none, configApiKeyWritten := none,
        configWorkspaceWritten := none }
    else
      let kw := if keyringSetOk then some apiKey else none
      let cfgKey := if keyringSetOk then none else some apiKey
      let warn :=
        if keyringSetOk then ([] : List String)
        else ["Warning: Could not store in system keyring, storing in config file"]
      if writeConfigOk || safeWriteOk then
        { printed := [keyPrompt, wsPrompt] ++ warn ++ ["✓ Authenticated successfully"],
          err := none,
          keyringWritten := kw, configApiKeyWritten := cfgKey,
          configWorkspaceWritten := some workspaceID }
      else
        { printed := [keyPrompt, wsPrompt] ++ warn,
          err := some "failed to save config",
          keyringWritten := kw, configApiKeyWritten := cfgKey,
          configWorkspaceWritten := some workspaceID }

/-! ## HTTP request/response model -/

/-- Outcome of one `http.DefaultClient.Do` call: a transport-level failure
(`err != nil`, before any status code exists) or a response with its status
code and fully-read body. -/
inductive HttpOutcome where
  | transportError (cause : String)
  | response (status : Nat) (body : String)
deriving DecidableEq

/-- One HTTP request as the handlers build it.  `hasBody` records whether a
JSON body is attached (its exact bytes are irrelevant to every claim). -/
structure Req where
  method : String
  url : String
  authHeader : Option String := none
  contentType : Option String := none
  hasBody : Bool := false
deriving DecidableEq

/-- Result of running one command handler: the network requests it issued in
order, the lines it printed, and the error it returned (`none` = exit 0). -/
structure CmdOut where
  requests : List Req
  printed : List String
  err : Option String
deriving DecidableEq

def notAuthenticatedMsg : String := "not authenticated. Run 'hy auth login' first"

def noWorkspaceMsg : String := "no workspace configured. Run 'hy auth login' first"

def apiErrorMsg (status : Nat) (body : String) : String :=
  "API error (" ++ toString status ++ "): " ++ body

def requestFailedMsg (cause : String) : String := "request failed: " ++ cause

/-! ## `assets` command handlers (src/cmd/assets.go, first body) -/

structure AssetRow where
  id : String := ""
  name : String := ""
  type : String := ""
  mimeType : String := ""
  sizeBytes : Int := 0
  uploadedAt : String := ""
deriving DecidableEq

structure AssetListResult where
  assets : List AssetRow := []
  nextCursor : String := ""
  hasMore : Bool := false
deriving DecidableEq

/-- `assetsListCmd`.  `decoded` is the checked JSON decode of the 200 body
(`Except.error cause` models a decode error, which the handler reports). -/
def assetsListRun (apiKey workspaceID apiURL : String)
    (assetType : String) (limit : Int)
    (resp : HttpOutcome) (decoded : Except String AssetListResult) : CmdOut :=
  if apiKey = "" then
    { requests := [], printed := [], err := some notAuthenticatedMsg }
  else if workspaceID = "" then
    { requests := [], printed := [], err := some noWorkspaceMsg }
  else
    let url0 := apiURL ++ "/workspaces/" ++ workspaceID ++ "/assets?limit="
      ++ toString limit
    let url := if assetType ≠ "" then url0 ++ "&type=" ++ assetType else url0
    let req : Req := { method := "GET", url := url, authHeader := some apiKey }
    match resp with
    | .transportError cause =>
      { requests := [req], printed := [], err := some (requestFailedMsg cause) }
    | .response status body =>
      if status ≠ 200 then
        { requests := [req], printed := [], err := some (apiErrorMsg status body) }
      else
        match decoded with
        | .error cause =>
          { requests := [req], printed := [],
            err := some ("failed to parse response: " ++ cause) }
        | .ok result =>
          if result.assets.length = 0 then
            { requests := [req], printed := ["No assets found"], err := none }
          else
            let header := "ID\tNAME\tTYPE\tSIZE"
            let rows := result.assets.map fun a =>
              a.id ++ "\t" ++ a.name ++ "\t" ++ a.type ++ "\t"
                ++ formatBytes a.sizeBytes
            let more :=
              if result.hasMore then ["\n(more results available)"]
              else ([] : List String)
            { requests := [req], printed := [header] ++ rows ++ more, err := none }

structure AssetDoc where
  id : String := ""
  name : String := ""
  type : String := ""
  mimeType : String := ""
  sizeBytes : Int := 0
  downloadURL : Option String := none
  uploadedAt : String := ""
deriving DecidableEq

/-- `assetsGetCmd`.  Note: unlike `assetsListCmd`, this handler does not
check `workspaceID` for emptiness before building the URL and issuing the
request, and it ignores the JSON decode error (`decoded` is the decoded
struct, the zero value when decoding failed). -/
def assetsGetRun (apiKey workspaceID apiURL assetID : String)
    (resp : HttpOutcome) (decoded : AssetDoc) : CmdOut :=
  if apiKey = "" then
    { requests := [], printed := [], err := some notAuthenticatedMsg }
  else
    let url := apiURL ++ "/workspaces/" ++ workspaceID ++ "/assets/" ++ assetID
    let req : Req := { method := "GET", url := url, authHeader := some apiKey }
    match resp with
    | .transportError cause =>
      { requests := [req], printed := [], err := some (requestFailedMsg cause) }
    | .response status body =>
      if status ≠ 200 then
        { requests := [req], printed := [], err := some (apiErrorMsg status body) }
      else
        let base :=
          ["ID:       " ++ decoded.id,
           "Name:     " ++ decoded.name,
           "Type:     " ++ decoded.type,
           "MIME:     " ++ decoded.mimeType,
           "Size:     " ++ formatBytes decoded.sizeBytes,
           "Uploaded: " ++ decoded.uploadedAt]
        let dl :=
          match decoded.downloadURL with
          | some u =>
            if u ≠ "" then ["\nDownload URL (expires in 1 hour):\n" ++ u]
            else ([] : List String)
          | none => []
        { requests := [req], printed := base ++ dl, err := none }

/-- `assetsDeleteCmd` (first body of src/cmd/assets.go).  `stdinToken` is the
value `fmt.Scanln(&confirm)` stores: the first whitespace-delimited token of
the line read from standard input, `""` on an empty line or EOF.  This
handler accepts exactly status 200; it does not check `workspaceID`. -/
def assetsDeleteRun (apiKey workspaceID apiURL assetID : String)
    (force : Bool) (stdinToken : String) (resp : HttpOutcome) : CmdOut :=
  if apiKey = "" then
    { requests := [], printed := [], err := some notAuthenticatedMsg }
  else
    let promptLine := "Delete asset " ++ assetID ++ "? [y/N] "
    let doDelete : List String → CmdOut := fun pref =>
      let url := apiURL ++ "/workspaces/" ++ workspaceID ++ "/assets/" ++ assetID
      let req : Req := { method := "DELETE", url := url, authHeader := some apiKey }
      match resp with
      | .transportError cause =>
        { requests := [req], printed := pref, err := some (requestFailedMsg cause) }
      | .response status body =>
        if status ≠ 200 then
          { requests := [req], printed := pref, err := some (apiErrorMsg status body) }
        else
          { requests := [req], printed := pref ++ ["✓ Deleted asset: " ++ assetID],
            err := none }
    if force then doDelete []
    else
      if strToLower stdinToken ≠ "y" ∧ strToLower stdinToken ≠ "yes" then
        { requests := [], printed := [promptLine, "Cancelled"], err := none }
      else doDelete [promptLine]

/-! ## `productions` command handlers (unnamed productions file, the variant
the spec follows: list/get/create/build/delete/status) -/

abbrev SpecMap := List (String × String)

/-- `productionsListCmd`. -/
def productionsListRun (apiKey workspaceID apiURL : String)
    (statusFilter : String) (limit : Int)
    (resp : HttpOutcome)
    (decoded : Except String (List (String × String × String × String))) : CmdOut :=
  if apiKey = "" then
    { requests := [], printed := [], err := some notAuthenticatedMsg }
  else if workspaceID = "" then
    { requests := [], printed := [], err := some noWorkspaceMsg }
  else
    let url0 := apiURL ++ "/workspaces/" ++ workspaceID ++ "/productions?limit="
      ++ toString limit
    let url := if statusFilter ≠ "" then url0 ++ "&status=" ++ statusFilter else url0
    let req : Req := { method := "GET", url := url, authHeader := some apiKey }
    match resp with
    | .transportError cause =>
      { requests := [req], printed := [], err := some (requestFailedMsg cause) }
    | .response status body =>
      if status ≠ 200 then
        { requests := [req], printed := [], err := some (apiErrorMsg status body) }
      else
        match decoded with
        | .error cause =>
          { requests := [req], printed := [],
            err := some ("failed to parse response: " ++ cause) }
        | .ok rows =>
          if rows.length = 0 then
            { requests := [req], printed := ["No productions found"], err := none }
          else
            let header := "ID\tNAME\tSTATUS\tTOPIC"
            let lines := rows.map fun r =>
              let topic := r.2.2.2
              let topic := if 40 < topic.length then strTake topic 37 ++ "..." else topic
              r.1 ++ "\t" ++ r.2.1 ++ "\t" ++ r.2.2.1 ++ "\t" ++ topic
            { requests := [req], printed := [header] ++ lines, err := none }

/-- `productionsGetCmd`: no `workspaceID` check; on 200, the decoded generic
map is re-marshalled with indentation and printed (`prettyBody` is that
pretty-printed JSON text, supplied as an oracle). -/
def productionsGetRun (apiKey workspaceID apiURL productionID : String)
    (resp : HttpOutcome) (prettyBody : String) : CmdOut :=
  if apiKey = "" then
    { requests := [], printed := [], err := some notAuthenticatedMsg }
  else
    let url := apiURL ++ "/workspaces/" ++ workspaceID ++ "/productions/"
      ++ productionID
    let req : Req := { method := "GET", url := url, authHeader := some apiKey }
    match resp with
    | .transportError cause =>
      { requests := [req], printed := [], err := some (requestFailedMsg cause) }
    | .response status body =>
      if status ≠ 200 then
        { requests := [req], printed := [], err := some (apiErrorMsg status body) }
      else
        { requests := [req], printed := [prettyBody], err := none }

/-- Outcome of reading and JSON-parsing the `--spec` file. -/
inductive SpecFileRead where
  | readError (cause : String)
  | parseError (cause : String)
  | parsed (spec : SpecMap)
deriving DecidableEq

structure CreateResult where
  id : String := ""
  name : String := ""
  topic : String := ""
  status : String := ""
deriving DecidableEq

/-- `productionsCreateCmd`: checks apiKey, workspaceID and the required
`--name`/`--topic` flags, loads the optional spec file, then either stops at
`--dry-run` (printing what would be created, no network call) or POSTs,
accepting exactly status 201. -/
def productionsCreateRun (apiKey workspaceID apiURL : String)
    (name topic category specFile : String) (specRead : SpecFileRead)
    (dryRun : Bool) (resp : HttpOutcome) (decoded : CreateResult) : CmdOut :=
  if apiKey = "" then
    { requests := [], printed := [], err := some notAuthenticatedMsg }
  else if workspaceID = "" then
    { requests := [], printed := [], err := some noWorkspaceMsg }
  else if name = "" ∨ topic = "" then
    { requests := [], printed := [], err := some "--name and --topic are required" }
  else
    let specStep : Except String (Option SpecMap) :=
      if specFile = "" then .ok none
      else
        match specRead with
        | .readError cause => .error ("failed to read spec file: " ++ cause)
        | .parseError cause => .error ("invalid spec JSON: " ++ cause)
        | .parsed m => .ok (some m)
    match specStep with
    | .error e => { requests := [], printed := [], err := some e }
    | .ok _ =>
      if dryRun then
        { requests := [],
          printed := ["[dry-run] Would create production:",
                      "  Name:     " ++ name,
                      "  Topic:    " ++ topic]
            ++ (if category ≠ "" then ["  Category: " ++ category]
                else ([] : List String))
            ++ (if specFile ≠ "" then ["  Spec:     " ++ specFile]
                else ([] : List String)),
          err := none }
      else
        let req : Req :=
          { method := "POST",
            url := apiURL ++ "/workspaces/" ++ workspaceID ++ "/productions",
            authHeader := some apiKey,
            contentType := some "application/json", hasBody := true }
        match resp with
        | .transportError cause =>
          { requests := [req], printed := [], err := some (requestFailedMsg cause) }
        | .response status body =>
          if status ≠ 201 then
            { requests := [req], printed := [], err := some (apiErrorMsg status body) }
          else
            { requests := [req],
              printed := ["✓ Created production: " ++ decoded.id,
                          "  Name:   " ++ decoded.name,
                          "  Topic:  " ++ decoded.topic,
                          "  Status: " ++ decoded.status],
              err := none }

/-- The production struct `productionsBuildCmd` decodes from the first-step
GET body; `spec = none` models the JSON field being null or absent (the Go
zero value of `map[string]interface` is `nil`). -/
structure ProductionDoc where
  id : String := ""
  name : String := ""
  status : String := ""
  spec : Option SpecMap := none
deriving DecidableEq

structure BuildResult where
  id : String := ""
  status : String := ""
  buildId : String := ""
  message : String := ""
deriving DecidableEq

/-- `productionsBuildCmd`: no `workspaceID` check; GET the production
(accepting exactly 200, decode error ignored), fail locally when its spec is
nil, stop at `--validate-only`, otherwise POST the build trigger: 202 is
success, 409 is remapped to a dedicated message, everything else is the
generic API error. -/
def productionsBuildRun (apiKey workspaceID apiURL productionID : String)
    (validateOnly : Bool)
    (getResp : HttpOutcome) (getDecoded : ProductionDoc)
    (postResp : HttpOutcome) (postDecoded : BuildResult) : CmdOut :=
  if apiKey = "" then
    { requests := [], printed := [], err := some notAuthenticatedMsg }
  else
    let getUrl := apiURL ++ "/workspaces/" ++ workspaceID ++ "/productions/"
      ++ productionID
    let getReq : Req := { method := "GET", url := getUrl, authHeader := some apiKey }
    match getResp with
    | .transportError cause =>
      { requests := [getReq], printed := [], err := some (requestFailedMsg cause) }
    | .response gs gbody =>
      if gs ≠ 200 then
        { requests := [getReq], printed := [], err := some (apiErrorMsg gs gbody) }
      else
        match getDecoded.spec with
        | none =>
          { requests := [getReq], printed := [],
            err := some "production has no spec. Add a spec before building" }
        | some _ =>
          if validateOnly then
            { requests := [getReq],
              printed := ["[validate-only] Production " ++ productionID
                            ++ " is ready to build",
                          "  Name:   " ++ getDecoded.name,
                          "  Status: " ++ getDecoded.status,
                          "  Spec:   ✓ valid"],
              err := none }
          else
            let postReq : Req :=
              { method := "POST", url := getUrl ++ "/build", authHeader := some apiKey }
            match postResp with
            | .transportError cause =>
              { requests := [getReq, postReq], printed := [],
                err := some (requestFailedMsg cause) }
            | .response ps pbody =>
              if ps = 202 then
                { requests := [getReq, postReq],
                  printed := ["✓ Build started for " ++ productionID]
                    ++ (if postDecoded.buildId ≠ "" then
                          ["  Build ID: " ++ postDecoded.buildId]
                        else ([] : List String))
                    ++ ["  " ++ postDecoded.message],
                  err := none }
              else if ps = 409 then
                { requests := [getReq, postReq], printed := [],
                  err := some "build already in progress for this production" }
              else
                { requests := [getReq, postReq], printed := [],
                  err := some (apiErrorMsg ps pbody) }

/-- `productionsDeleteCmd`: same confirmation shape as `assetsDeleteCmd`
(`fmt.Scanln` token, `y`/`yes` case-insensitive), no `workspaceID` check,
accepts exactly status 200. -/
def productionsDeleteRun (apiKey workspaceID apiURL productionID : String)
    (force : Bool) (stdinToken : String) (resp : HttpOutcome) : CmdOut :=
  if apiKey = "" then
    { requests := [], printed := [], err := some notAuthenticatedMsg }
  else
    let promptLine := "Delete production " ++ productionID
      ++ "? This can be undone within 30 days. [y/N] "
    let doDelete : List String → CmdOut := fun pref =>
      let url := apiURL ++ "/workspaces/" ++ workspaceID ++ "/productions/"
        ++ productionID
      let req : Req := { method := "DELETE", url := url, authHeader := some apiKey }
      match resp with
      | .transportError cause =>
        { requests := [req], printed := pref, err := some (requestFailedMsg cause) }
      | .response status body =>
        if status ≠ 200 then
          { requests := [req], printed := pref, err := some (apiErrorMsg status body) }
        else
          { requests := [req],
            printed := pref ++ ["✓ Deleted production: " ++ productionID,
                                "  (Will be permanently removed after 30 days)"],
            err := none }
    if force then doDelete []
    else
      if strToLower stdinToken ≠ "y" ∧ strToLower stdinToken ≠ "yes" then
        { requests := [], printed := [promptLine, "Cancelled"], err := none }
      else doDelete [promptLine]

structure BuildStatusDoc where
  id : String := ""
  status : String := ""
  buildId : Option String := none
  buildLogUrl : Option String := none
  buildFinishedAt : Option String := none
  outputUrl : Option String := none
deriving DecidableEq

/-- A `Label: value` line printed only when the optional field is present and
non-empty (the `if ptr != nil && *ptr != ""` pattern of `productionsStatusCmd`). -/
def optLine (label : String) (v : Option String) : List String :=
  match v with
  | some s => if s ≠ "" then [label ++ s] else []
  | none => []

/-- `productionsStatusCmd`: no `workspaceID` check, accepts exactly 200,
decode error ignored, optional fields omitted when nil or empty. -/
def productionsStatusRun (apiKey workspaceID apiURL productionID : String)
    (resp : HttpOutcome) (decoded : BuildStatusDoc) : CmdOut :=
  if apiKey = "" then
    { requests := [], printed := [], err := some notAuthenticatedMsg }
  else
    let url := apiURL ++ "/workspaces/" ++ workspaceID ++ "/productions/"
      ++ productionID ++ "/build"
    let req : Req := { method := "GET", url := url, authHeader := some apiKey }
    match resp with
    | .transportError cause =>
      { requests := [req], printed := [], err := some (requestFailedMsg cause) }
    | .response status body =>
      if status ≠ 200 then
        { requests := [req], printed := [], err := some (apiErrorMsg status body) }
      else
        { requests := [req],
          printed := ["Production: " ++ decoded.id,
                      "Status:     " ++ decoded.status]
            ++ optLine "Build ID:   " decoded.buildId
            ++ optLine "Logs:       " decoded.buildLogUrl
            ++ optLine "Finished:   " decoded.buildFinishedAt
            ++ optLine "Output:     " decoded.outputUrl,
          err := none }

/-- Models Go `filepath.Base`: `"."` for the empty path, otherwise the last
element of the path after removing trailing slashes (`"/"` when the path
consists only of slashes). -/
def fileBase (p : String) : String :=
  if p = "" then "."
  else
    let rev := p.data.reverse.dropWhile (fun c => c == '/')
    if rev = [] then "/"
    else ⟨(rev.takeWhile (fun c => c != '/')).reverse⟩

/-- The struct `assetsUploadCmd` decodes from the create response (decode
error ignored). -/
structure UploadCreateResult where
  id : String := ""
  uploadUrl : String := ""
deriving DecidableEq

/-- `assetsUploadCmd` (first body of src/cmd/assets.go): checks apiKey AND
workspaceID for emptiness before any file or network access, stats the file
(`statSize` is the `os.Stat` outcome), infers name/MIME/asset type from the
path (both flag-overridable), POSTs the metadata accepting only status 201,
re-opens the file (`openErr`) and PUTs the raw bytes to the returned upload
URL, accepting 200 or 201. -/
def assetsUploadRun (apiKey workspaceID apiURL filePath : String)
    (typeFlag nameFlag : String)
    (statSize : Except String Int) (openErr : Option String)
    (createResp : HttpOutcome) (decoded : UploadCreateResult)
    (uploadResp : HttpOutcome) : CmdOut :=
  if apiKey = "" then
    { requests := [], printed := [], err := some notAuthenticatedMsg }
  else if workspaceID = "" then
    { requests := [], printed := [], err := some noWorkspaceMsg }
  else
    match statSize with
    | .error cause =>
      { requests := [], printed := [], err := some ("cannot access file: " ++ cause) }
    | .ok size =>
      let mimeType := detectMimeType filePath
      let assetType0 := detectAssetType mimeType
      let assetType := if typeFlag ≠ "" then typeFlag else assetType0
      let fileName := if nameFlag ≠ "" then nameFlag else fileBase filePath
      let uploading := "Uploading " ++ fileName ++ " (" ++ assetType ++ ", "
        ++ formatBytes size ++ ")..."
      let postReq : Req :=
        { method := "POST",
          url := apiURL ++ "/workspaces/" ++ workspaceID ++ "/assets",
          authHeader := some apiKey, contentType := some "application/json",
          hasBody := true }
      match createResp with
      | .transportError cause =>
        { requests := [postReq], printed := [uploading],
          err := some (requestFailedMsg cause) }
      | .response status body =>
        if status ≠ 201 then
          { requests := [postReq], printed := [uploading],
            err := some (apiErrorMsg status body) }
        else
          match openErr with
          | some cause =>
            { requests := [postReq], printed := [uploading],
              err := some ("cannot open file: " ++ cause) }
          | none =>
            let putReq : Req :=
              { method := "PUT", url := decoded.uploadUrl,
                contentType := some mimeType, hasBody := true }
            match uploadResp with
            | .transportError cause =>
              { requests := [postReq, putReq], printed := [uploading],
                err := some ("upload failed: " ++ cause) }
            | .response us ubody =>
              if us ≠ 200 ∧ us ≠ 201 then
                { requests := [postReq, putReq], printed := [uploading],
                  err := some ("upload failed (" ++ toString us ++ "): " ++ ubody) }
              else
                { requests := [postReq, putReq],
                  printed := [uploading, "✓ Uploaded: " ++ decoded.id],
                  err := none }

theorem expLoop_of_lt {n : Nat} (h : n < 1024) : expLoop n = 0 := by
  rw [expLoop]
  simp [Nat.not_le.mpr h]

theorem expLoop_of_ge {n : Nat} (h : 1024 ≤ n) :
    expLoop n = expLoop (n / 1024) + 1 := by
  rw [expLoop]
  simp [h]

theorem expLoop_mono : ∀ n m : Nat, m ≤ n → expLoop m ≤ expLoop n := by
  intro n
  induction n using Nat.strong_induction_on with
  | _ n ih =>
    intro m hmn
    by_cases hm : 1024 ≤ m
    · have hn : 1024 ≤ n := le_trans hm hmn
      rw [expLoop_of_ge hm, expLoop_of_ge hn]
      have hd : m / 1024 ≤ n / 1024 := Nat.div_le_div_right hmn
      have hlt : n / 1024 < n := Nat.div_lt_self (by omega) (by omega)
      exact Nat.succ_le_succ (ih (n / 1024) hlt (m / 1024) hd)
    · rw [expLoop_of_lt (by omega)]
      exact Nat.zero_le _

theorem unitIndex_mono {m n : Int} (h : m ≤ n) : unitIndex m ≤ unitIndex n := by
  unfold unitIndex
  by_cases hn : n < 1024
  · have hm : m < 1024 := lt_of_le_of_lt h hn
    simp [hm, hn]
  · by_cases hm : m < 1024
    · simp [hm, hn]
    · simp only [hm, hn, if_false]
      exact Nat.succ_le_succ
        (expLoop_mono _ _ (Nat.div_le_div_right (Int.toNat_le_toNat h)))

theorem unitChar_eq_unitNames (e : Nat) :
    ("KMGTPE".toList.getD e '?').toString ++ "B" = unitNames.getD (e + 1) "?B" := by
  match e with
  | 0 => decide
  | 1 => decide
  | 2 => decide
  | 3 => decide
  | 4 => decide
  | 5 => decide
  | e + 6 =>
    have hl1 : ("KMGTPE".toList).length = 6 := by decide
    have hl2 : unitNames.length = 7 := by decide
    have h1 : ("KMGTPE".toList).getD (e + 6) '?' = '?' :=
      List.getD_eq_default _ _ (by omega)
    have h2 : unitNames.getD (e + 6 + 1) "?B" = "?B" :=
      List.getD_eq_default _ _ (by omega)
    rw [h1, h2]
    decide

theorem strStarts_iff {s pre : String} :
    strStarts s pre = true ↔ pre.data <+: s.data := by
  unfold strStarts
  exact List.isPrefixOf_iff_prefix

theorem strStarts_excl {s p q : String}
    (h : strStarts s p = true)
    (hpq : ¬ p.data <+: q.data) (hqp : ¬ q.data <+: p.data) :
    strStarts s q = false := by
  rw [strStarts_iff] at h
  by_contra hq
  rw [Bool.not_eq_false, strStarts_iff] at hq
  rcases List.prefix_or_prefix_of_prefix h hq with h1 | h2
  · exact hpq h1
  · exact hqp h2

/-! ## Claim theorems -/

/-- C8: `detectAssetType` is total on MIME-type strings, mapping the prefixes
`video/`, `image/`, `audio/`, `font/` to the corresponding asset type and
every other string to the default `"video"`; `detectMimeType` is a pure
function of the lowercased file extension through the static table
`mimeTypes`, and every extension absent from the table maps to
`"application/octet-stream"`. -/
theorem c8_detect :
    (∀ m, strStarts m "video/" = true → detectAssetType m = "video")
    ∧ (∀ m, strStarts m "image/" = true → detectAssetType m = "image")
    ∧ (∀ m, strStarts m "audio/" = true → detectAssetType m = "audio")
    ∧ (∀ m, strStarts m "font/" = true → detectAssetType m = "font")
    ∧ (∀ m, strStarts m "video/" = false → strStarts m "image/" = false →
        strStarts m "audio/" = false → strStarts m "font/" = false →
        detectAssetType m = "video")
    ∧ (∀ p q, strToLower (fileExt p) = strToLower (fileExt q) →
        detectMimeType p = detectMimeType q)
    ∧ (∀ p, mimeTypes.lookup (strToLower (fileExt p)) = none →
        detectMimeType p = "application/octet-stream") := by
  refine ⟨?_, ?_, ?_, ?_, ?_, ?_, ?_⟩
  · intro m h
    simp [detectAssetType, h]
  · intro m h
    have hv : strStarts m "video/" = false := strStarts_excl h (by decide) (by decide)
    simp [detectAssetType, h, hv]
  · intro m h
    have hv : strStarts m "video/" = false := strStarts_excl h (by decide) (by decide)
    have hi : strStarts m "image/" = false := strStarts_excl h (by decide) (by decide)
    simp [detectAssetType, h, hv, hi]
  · intro m h
    have hv : strStarts m "video/" = false := strStarts_excl h (by decide) (by decide)
    have hi : strStarts m "image/" = false := strStarts_excl h (by decide) (by decide)
    have ha : strStarts m "audio/" = false := strStarts_excl h (by decide) (by decide)
    simp [detectAssetType, h, hv, hi, ha]
  · intro m h1 h2 h3 h4
    simp [detectAssetType, h1, h2, h3, h4]
  · intro p q h
    simp only [detectMimeType]
    rw [h]
  · intro p h
    simp [detectMimeType, h]

/-- C8 witness: concrete evaluations through the theorem. -/
theorem c8_detect_witness :
    detectAssetType "image/png" = "image"
    ∧ detectMimeType "movie.xyz" = "application/octet-stream" :=
  ⟨c8_detect.2.1 "image/png" (by decide),
   c8_detect.2.2.2.2.2.2 "movie.xyz" (by decide)⟩

/-- C4: `formatBytes` renders every `0 ≤ n < 1024` as the integer `n`
followed by `" B"` (in particular `"0 B"` and `"1023 B"`),
renders 1024 as `"1.0 KB"`, its displayed unit (indexed by `unitIndex`:
`B, KB, MB, GB, TB, PB, EB`) is monotonically non-decreasing in `n`, and for
`n ≥ 1024` the output is the base-1024 mantissa rounded to one decimal place
followed by the unit selected by `unitIndex n`. -/
theorem c4_formatBytes :
    (∀ n : Int, 0 ≤ n → n < 1024 → formatBytes n = toString n ++ " B")
    ∧ formatBytes 0 = "0 B"
    ∧ formatBytes 1023 = "1023 B"
    ∧ formatBytes 1024 = "1.0 KB"
    ∧ (∀ m n : Int, m ≤ n → unitIndex m ≤ unitIndex n)
    ∧ (∀ n : Int, 1024 ≤ n →
        formatBytes n = fmtOneDecimal n.toNat (1024 ^ unitIndex n) ++ " "
          ++ unitNames.getD (unitIndex n) "?B") := by
  refine ⟨?_, ?_, ?_, ?_, ?_, ?_⟩
  · intro n _ h2
    simp [formatBytes, h2]
  · decide
  · decide
  · have h2 : expLoop ((1024 : Int).toNat / 1024) = 0 := by
      have h1 : ((1024 : Int).toNat / 1024) = 1 := by decide
      rw [h1]
      exact expLoop_of_lt (by omega)
    have h3 : ¬ ((1024 : Int) < 1024) := by decide
    simp only [formatBytes, h3, if_false, h2]
    decide
  · exact fun m n h => unitIndex_mono h
  · intro n hn
    have hnot : ¬ n < 1024 := by omega
    simp only [formatBytes, unitIndex, hnot, if_false]
    rw [String.append_assoc, unitChar_eq_unitNames]

/-- C4 witness: the theorem applied at concrete inputs. -/
theorem c4_formatBytes_witness :
    formatBytes 500 = toString (500 : Int) ++ " B" ∧ unitIndex 5 ≤ unitIndex 2048 :=
  ⟨c4_formatBytes.1 500 (by decide) (by decide),
   c4_formatBytes.2.2.2.2.1 5 2048 (by decide)⟩

/-- C3 counterexample: when the environment override is unset and the secure
store lookup succeeds with the empty string, `GetAPIKey` returns that empty
string instead of falling through to the non-empty config value, so it is not
"the first non-empty value found" (`resolveApiKeySpecModel`, the spec's
rule stated as a function, returns the config value here). -/
theorem c3_counterexample :
    GetAPIKey { hyApiKeyEnv := "", keyringGet := some "", configApiKey := "cfg_key_123" } = ""
    ∧ resolveApiKeySpecModel
        { hyApiKeyEnv := "", keyringGet := some "", configApiKey := "cfg_key_123" }
      = "cfg_key_123" := by
  constructor <;> decide

/-- C3 (amended): `GetAPIKey` consults the environment variable, the secure
store and the config value in that order; the environment wins when
non-empty, otherwise any successful secure-store lookup wins even when its
value is empty, otherwise the config value is returned.  Whenever the secure
store does not succeed-with-empty, this coincides with the spec's
"first non-empty wins" rule, and with only `HY_API_KEY=sk_test` set it
returns exactly `"sk_test"`. -/
theorem c3_getAPIKey :
    (∀ e : AuthEnv, e.hyApiKeyEnv ≠ "" → GetAPIKey e = e.hyApiKeyEnv)
    ∧ (∀ e : AuthEnv, ∀ k, e.hyApiKeyEnv = "" → e.keyringGet = some k →
        GetAPIKey e = k)
    ∧ (∀ e : AuthEnv, e.hyApiKeyEnv = "" → e.keyringGet = none →
        GetAPIKey e = e.configApiKey)
    ∧ (∀ e : AuthEnv, e.keyringGet ≠ some "" →
        GetAPIKey e = resolveApiKeySpecModel e)
    ∧ GetAPIKey { hyApiKeyEnv := "sk_test", keyringGet := none, configApiKey := "" }
        = "sk_test" := by
  refine ⟨?_, ?_, ?_, ?_, by decide⟩
  · intro e h
    simp [GetAPIKey, h]
  · intro e k h1 h2
    simp [GetAPIKey, h1, h2]
  · intro e h1 h2
    simp [GetAPIKey, h1, h2]
  · intro e hk
    by_cases he : e.hyApiKeyEnv = ""
    · cases hkg : e.keyringGet with
      | none =>
        by_cases hc : e.configApiKey = "" <;>
          simp [GetAPIKey, resolveApiKeySpecModel, firstNonEmpty, he, hkg, hc]
      | some k =>
        have hkne : k ≠ "" := by
          intro hke
          exact hk (by rw [hkg, hke])
        simp [GetAPIKey, resolveApiKeySpecModel, firstNonEmpty, he, hkg, hkne]
    · simp [GetAPIKey, resolveApiKeySpecModel, firstNonEmpty, he]

/-- C3 witness: the amended theorem applied at the spec's scenario. -/
theorem c3_getAPIKey_witness :
    GetAPIKey { hyApiKeyEnv := "sk_env_key", keyringGet := some "sk_ring", configApiKey := "c" }
      = "sk_env_key" :=
  c3_getAPIKey.1 { hyApiKeyEnv := "sk_env_key", keyringGet := some "sk_ring", configApiKey := "c" }
    (by decide)

/-- C9: `auth status` redacts the resolved key as
`apiKey[:12] + "..." + apiKey[len-4:]`, which is well-defined exactly when
the key has length at least 12; for every non-empty key shorter than 12 the
command panics with a slice-out-of-range error instead of printing status or
returning an error, and such a key can reach the handler through the
unvalidated `HY_API_KEY` environment override of `GetAPIKey`. -/
theorem c9_authStatus :
    (∀ k ws u : String, k ≠ "" → k.length < 12 →
        authStatusRun k ws u = .panicked sliceOutOfRangeMsg)
    ∧ (∀ k ws u : String, k ≠ "" →
        (authStatusRun k ws u ≠ .panicked sliceOutOfRangeMsg ↔ 12 ≤ k.length))
    ∧ (∀ envKey ws u : String, envKey ≠ "" → envKey.length < 12 →
        authStatusRun
            (GetAPIKey { hyApiKeyEnv := envKey, keyringGet := none, configApiKey := "" })
            ws u
          = .panicked sliceOutOfRangeMsg) := by
  refine ⟨?_, ?_, ?_⟩
  · intro k ws u h1 h2
    have h3 : ¬ (12 ≤ k.length) := by omega
    simp [authStatusRun, h1, h3]
  · intro k ws u h1
    by_cases h2 : 12 ≤ k.length
    · simp [authStatusRun, h1, h2]
    · simp [authStatusRun, h1, h2]
  · intro envKey ws u h1 h2
    have henv : GetAPIKey { hyApiKeyEnv := envKey, keyringGet := none, configApiKey := "" }
        = envKey := by
      simp [GetAPIKey, h1]
    rw [henv]
    have h3 : ¬ (12 ≤ envKey.length) := by omega
    simp [authStatusRun, h1, h3]

/-- C9 witness: an 8-character environment key panics the status command. -/
theorem c9_authStatus_witness :
    authStatusRun "sk_short" "ws_1" "https://api" = .panicked sliceOutOfRangeMsg :=
  c9_authStatus.1 "sk_short" "ws_1" "https://api" (by decide) (by decide)

/-- C10: interactive `auth login` validates before persisting: an entered API
key whose trimmed value does not start with `sk_live_` is rejected, an
entered workspace ID whose trimmed value does not start with `ws_` is
rejected, and on either rejection neither the keyring nor the config store is
written. -/
theorem c10_login :
    (∀ i1 i2 : String, ∀ kOk wOk sOk : Bool,
        strStarts (trimSpace i1) "sk_live_" = false →
        (authLoginRun i1 i2 kOk wOk sOk).err
            = some "invalid API key format (should start with sk_live_)"
          ∧ (authLoginRun i1 i2 kOk wOk sOk).keyringWritten = none
          ∧ (authLoginRun i1 i2 kOk wOk sOk).configApiKeyWritten = none
          ∧ (authLoginRun i1 i2 kOk wOk sOk).configWorkspaceWritten = none)
    ∧ (∀ i1 i2 : String, ∀ kOk wOk sOk : Bool,
        strStarts (trimSpace i2) "ws_" = false →
        (authLoginRun i1 i2 kOk wOk sOk).err ≠ none
          ∧ (authLoginRun i1 i2 kOk wOk sOk).keyringWritten = none
          ∧ (authLoginRun i1 i2 kOk wOk sOk).configApiKeyWritten = none
          ∧ (authLoginRun i1 i2 kOk wOk sOk).configWorkspaceWritten = none) := by
  constructor
  · intro i1 i2 kOk wOk sOk h
    simp [authLoginRun, h]
  · intro i1 i2 kOk wOk sOk h
    by_cases h1 : strStarts (trimSpace i1) "sk_live_" = false
    · simp [authLoginRun, h1]
    · rw [Bool.not_eq_false] at h1
      simp [authLoginRun, h1, h]

/-- C10 witness: a key with the wrong prefix is rejected with no writes. -/
theorem c10_login_witness :
    (authLoginRun "sk_test_123" "ws_1" true true true).err
        = some "invalid API key format (should start with sk_live_)"
      ∧ (authLoginRun "sk_test_123" "ws_1" true true true).keyringWritten = none
      ∧ (authLoginRun "sk_test_123" "ws_1" true true true).configApiKeyWritten = none
      ∧ (authLoginRun "sk_test_123" "ws_1" true true true).configWorkspaceWritten = none :=
  c10_login.1 "sk_test_123" "ws_1" true true true (by decide)

/-- C7 counterexample: with an empty `--name` (and a non-empty topic), the
dry-run create fails at the required-flag check before the dry-run branch and
prints nothing at all, so it does not echo the topic `"mytopic"` in its
output; the claim's "for all name and topic strings" is therefore false. -/
theorem c7_counterexample :
    productionsCreateRun "sk_live_key" "ws_1" "https://api" "" "mytopic" "" ""
        (.parsed []) true (.response 201 "") { }
      = { requests := [], printed := [],
          err := some "--name and --topic are required" } := by
  decide

/-- C7 (amended): in an authenticated, workspace-configured context and for
all NON-EMPTY name and topic strings X and Y, `productions create --dry-run
--name X --topic Y` issues no network call and prints X and Y verbatim. -/
theorem c7_dryRun :
    ∀ k ws u name topic : String, ∀ sr resp dec, k ≠ "" → ws ≠ "" →
      name ≠ "" → topic ≠ "" →
      productionsCreateRun k ws u name topic "" "" sr true resp dec
        = { requests := [],
            printed := ["[dry-run] Would create production:",
                        "  Name:     " ++ name,
                        "  Topic:    " ++ topic],
            err := none } := by
  intro k ws u name topic sr resp dec hk hws hn ht
  simp [productionsCreateRun, hk, hws, hn, ht]

/-- C7 witness: the amended theorem applied at concrete flags. -/
theorem c7_dryRun_witness :
    productionsCreateRun "sk_live_key" "ws_1" "https://api" "My Video" "space cats"
        "" "" (.parsed []) true (.response 201 "") { }
      = { requests := [],
          printed := ["[dry-run] Would create production:",
                      "  Name:     " ++ "My Video",
                      "  Topic:    " ++ "space cats"],
          err := none } :=
  c7_dryRun "sk_live_key" "ws_1" "https://api" "My Video" "space cats"
    (.parsed []) (.response 201 "") { } (by decide) (by decide) (by decide) (by decide)

/-- C5: in `productions build`, when the first-step GET returns 200 but the
decoded production's spec is null/absent, the command fails locally with the
message `"production has no spec. Add a spec before building"` (which
contains `"no spec"`) having issued only the single GET request — no POST;
and when the GET succeeds with a populated spec and the build POST returns
409, the command fails with `"build already in progress for this
production"` (which contains `"already in progress"`) instead of the generic
API-error format. -/
theorem c5_buildSpec :
    (∀ k ws u id vo gb gd pr pd, k ≠ "" → gd.spec = none →
        productionsBuildRun k ws u id vo (.response 200 gb) gd pr pd
          = { requests := [{ method := "GET",
                             url := u ++ "/workspaces/" ++ ws ++ "/productions/" ++ id,
                             authHeader := some k }],
              printed := [],
              err := some "production has no spec. Add a spec before building" })
    ∧ ("no spec".data <:+: "production has no spec. Add a spec before building".data)
    ∧ (∀ k ws u id gb b gd pd, k ≠ "" → gd.spec ≠ none →
        (productionsBuildRun k ws u id false (.response 200 gb) gd
            (.response 409 b) pd).err
          = some "build already in progress for this production")
    ∧ ("already in progress".data
        <:+: "build already in progress for this production".data) := by
  refine ⟨?_, by decide, ?_, by decide⟩
  · intro k ws u id vo gb gd pr pd hk hspec
    simp [productionsBuildRun, hk, hspec]
  · intro k ws u id gb b gd pd hk hspec
    cases hs : gd.spec with
    | none => exact absurd hs hspec
    | some m => simp [productionsBuildRun, hk, hs]

/-- C5 witness: the theorem applied at concrete inputs (a production decoded
with `spec = none`, and one with a populated spec whose POST returns 409). -/
theorem c5_buildSpec_witness :
    productionsBuildRun "sk_live_key" "ws_1" "https://api" "prod_abc123" false
        (.response 200 "") { } (.response 202 "") { }
      = { requests := [{ method := "GET",
                         url := "https://api" ++ "/workspaces/" ++ "ws_1"
                           ++ "/productions/" ++ "prod_abc123",
                         authHeader := some "sk_live_key" }],
          printed := [],
          err := some "production has no spec. Add a spec before building" }
    ∧ (productionsBuildRun "sk_live_key" "ws_1" "https://api" "prod_abc123" false
        (.response 200 "") { spec := some [] } (.response 409 "") { }).err
      = some "build already in progress for this production" :=
  ⟨c5_buildSpec.1 "sk_live_key" "ws_1" "https://api" "prod_abc123" false "" { }
      (.response 202 "") { } (by decide) (by decide),
   c5_buildSpec.2.2.1 "sk_live_key" "ws_1" "https://api" "prod_abc123" "" ""
      { spec := some [] } { } (by decide) (by decide)⟩

/-- C1 counterexample: a 204 No Content response to `assets delete` is NOT a
success — the handler accepts only status 200 and returns the generic
`"API error (204): "` failure, refuting the claimed uniform
200/201/202/204 success classification. -/
theorem c1_counterexample :
    (assetsDeleteRun "sk_live_key" "ws_1" "https://api" "asset_x" true ""
        (.response 204 "")).err
      = some (apiErrorMsg 204 "") := by
  decide

/-- C1 (amended): there is no shared four-way classifier; each handler
treats as a success exactly its own expected status — `assets delete`
accepts only 200 (204, like every 4xx/5xx status, yields the uniform
`"API error (status): body"` failure), the build POST accepts only 202 with
409 remapped to the dedicated in-progress message — and a transport-level
failure, before any status exists, yields `"request failed: cause"`. -/
theorem c1_statusClassification :
    (∀ k ws u id s b, k ≠ "" →
        ((assetsDeleteRun k ws u id true "" (.response s b)).err = none ↔ s = 200))
    ∧ (∀ k ws u id s b, k ≠ "" → s ≠ 200 →
        (assetsDeleteRun k ws u id true "" (.response s b)).err
          = some (apiErrorMsg s b))
    ∧ (∀ k ws u id c, k ≠ "" →
        (assetsDeleteRun k ws u id true "" (.transportError c)).err
          = some (requestFailedMsg c))
    ∧ (∀ k ws u id gb gd pd s b, k ≠ "" → gd.spec ≠ none →
        ((productionsBuildRun k ws u id false (.response 200 gb) gd
            (.response s b) pd).err = none ↔ s = 202))
    ∧ (∀ k ws u id gb gd pd s b, k ≠ "" → gd.spec ≠ none → s ≠ 202 → s ≠ 409 →
        (productionsBuildRun k ws u id false (.response 200 gb) gd
            (.response s b) pd).err = some (apiErrorMsg s b))
    ∧ (∀ k ws u id gb gd pd c, k ≠ "" → gd.spec ≠ none →
        (productionsBuildRun k ws u id false (.response 200 gb) gd
            (.transportError c) pd).err = some (requestFailedMsg c)) := by
  refine ⟨?_, ?_, ?_, ?_, ?_, ?_⟩
  · intro k ws u id s b hk
    by_cases hs : s = 200 <;> simp [assetsDeleteRun, hk, hs]
  · intro k ws u id s b hk hs
    simp [assetsDeleteRun, hk, hs]
  · intro k ws u id c hk
    simp [assetsDeleteRun, hk]
  · intro k ws u id gb gd pd s b hk hspec
    cases hsp : gd.spec with
    | none => exact absurd hsp hspec
    | some m =>
      by_cases hs : s = 202
      · simp [productionsBuildRun, hk, hsp, hs]
      · by_cases h9 : s = 409 <;> simp [productionsBuildRun, hk, hsp, hs, h9]
  · intro k ws u id gb gd pd s b hk hspec hs h9
    cases hsp : gd.spec with
    | none => exact absurd hsp hspec
    | some m => simp [productionsBuildRun, hk, hsp, hs, h9]
  · intro k ws u id gb gd pd c hk hspec
    cases hsp : gd.spec with
    | none => exact absurd hsp hspec
    | some m => simp [productionsBuildRun, hk, hsp]

/-- C1 witness: the amended theorem applied at concrete statuses. -/
theorem c1_statusClassification_witness :
    ((assetsDeleteRun "sk_live_key" "ws_1" "https://api" "asset_x" true ""
        (.response 200 "ok")).err = none ↔ (200 : Nat) = 200)
    ∧ (assetsDeleteRun "sk_live_key" "ws_1" "https://api" "asset_x" true ""
        (.response 404 "nf")).err = some (apiErrorMsg 404 "nf")
    ∧ (assetsDeleteRun "sk_live_key" "ws_1" "https://api" "asset_x" true ""
        (.transportError "dns")).err = some (requestFailedMsg "dns") :=
  ⟨c1_statusClassification.1 "sk_live_key" "ws_1" "https://api" "asset_x" 200 "ok"
      (by decide),
   c1_statusClassification.2.1 "sk_live_key" "ws_1" "https://api" "asset_x" 404 "nf"
      (by decide) (by decide),
   c1_statusClassification.2.2.1 "sk_live_key" "ws_1" "https://api" "asset_x" "dns"
      (by decide)⟩

/-- C2 counterexample: `assets get` with a non-empty apiKey and an EMPTY
workspaceId does not fail fast — it interpolates the empty string into the
URL and issues the GET request anyway (and even succeeds on a 200),
refuting the claimed workspace fail-fast for the listed commands. -/
theorem c2_counterexample :
    (assetsGetRun "sk_live_key" "" "https://api" "asset_x" (.response 200 "") { }).requests
      = [{ method := "GET", url := "https://api/workspaces//assets/asset_x",
           authHeader := some "sk_live_key" }]
    ∧ (assetsGetRun "sk_live_key" "" "https://api" "asset_x" (.response 200 "") { }).err
      = none := by
  constructor <;> decide

/-- C2 (amended): every embedded handler that requires authentication fails
fast, with no network request, when the resolved apiKey is empty; the
workspaceId fail-fast, however, holds for `assets list`, `assets upload`,
`productions list` and `productions create` but NOT for the commands the
claim lists — `assets get`, `assets delete`, `productions get`,
`productions build`, `productions delete` and `productions status` issue
their network request even when the resolved workspaceId is empty,
interpolating the empty string into the URL. -/
theorem c2_failFast :
    (∀ ws u t l resp dec, assetsListRun "" ws u t l resp dec
        = { requests := [], printed := [], err := some notAuthenticatedMsg })
    ∧ (∀ ws u id resp dec, assetsGetRun "" ws u id resp dec
        = { requests := [], printed := [], err := some notAuthenticatedMsg })
    ∧ (∀ ws u id f tok resp, assetsDeleteRun "" ws u id f tok resp
        = { requests := [], printed := [], err := some notAuthenticatedMsg })
    ∧ (∀ ws u sf l resp dec, productionsListRun "" ws u sf l resp dec
        = { requests := [], printed := [], err := some notAuthenticatedMsg })
    ∧ (∀ ws u id resp pb, productionsGetRun "" ws u id resp pb
        = { requests := [], printed := [], err := some notAuthenticatedMsg })
    ∧ (∀ ws u n t c sf sr dr resp dec, productionsCreateRun "" ws u n t c sf sr dr resp dec
        = { requests := [], printed := [], err := some notAuthenticatedMsg })
    ∧ (∀ ws u id vo gr gd pr pd, productionsBuildRun "" ws u id vo gr gd pr pd
        = { requests := [], printed := [], err := some notAuthenticatedMsg })
    ∧ (∀ ws u id f tok resp, productionsDeleteRun "" ws u id f tok resp
        = { requests := [], printed := [], err := some notAuthenticatedMsg })
    ∧ (∀ ws u id resp dec, productionsStatusRun "" ws u id resp dec
        = { requests := [], printed := [], err := some notAuthenticatedMsg })
    ∧ (∀ k u t l resp dec, k ≠ "" → assetsListRun k "" u t l resp dec
        = { requests := [], printed := [], err := some noWorkspaceMsg })
    ∧ (∀ k u sf l resp dec, k ≠ "" → productionsListRun k "" u sf l resp dec
        = { requests := [], printed := [], err := some noWorkspaceMsg })
    ∧ (∀ k u n t c sf sr dr resp dec, k ≠ "" →
        productionsCreateRun k "" u n t c sf sr dr resp dec
          = { requests := [], printed := [], err := some noWorkspaceMsg })
    ∧ (∀ k u id resp dec, k ≠ "" → (assetsGetRun k "" u id resp dec).requests ≠ [])
    ∧ (∀ k u id tok resp, k ≠ "" →
        (assetsDeleteRun k "" u id true tok resp).requests ≠ [])
    ∧ (∀ k u id resp pb, k ≠ "" → (productionsGetRun k "" u id resp pb).requests ≠ [])
    ∧ (∀ k u id vo gr gd pr pd, k ≠ "" →
        (productionsBuildRun k "" u id vo gr gd pr pd).requests ≠ [])
    ∧ (∀ k u id tok resp, k ≠ "" →
        (productionsDeleteRun k "" u id true tok resp).requests ≠ [])
    ∧ (∀ k u id resp dec, k ≠ "" →
        (productionsStatusRun k "" u id resp dec).requests ≠ [])
    ∧ (∀ ws u fp tf nf ss oe cr dec ur, assetsUploadRun "" ws u fp tf nf ss oe cr dec ur
        = { requests := [], printed := [], err := some notAuthenticatedMsg })
    ∧ (∀ k u fp tf nf ss oe cr dec ur, k ≠ "" →
        assetsUploadRun k "" u fp tf nf ss oe cr dec ur
          = { requests := [], printed := [], err := some noWorkspaceMsg }) := by
  refine ⟨?_, ?_, ?_, ?_, ?_, ?_, ?_, ?_, ?_, ?_, ?_, ?_, ?_, ?_, ?_, ?_, ?_, ?_, ?_, ?_⟩
  · intro ws u t l resp dec
    simp [assetsListRun]
  · intro ws u id resp dec
    simp [assetsGetRun]
  · intro ws u id f tok resp
    simp [assetsDeleteRun]
  · intro ws u sf l resp dec
    simp [productionsListRun]
  · intro ws u id resp pb
    simp [productionsGetRun]
  · intro ws u n t c sf sr dr resp dec
    simp [productionsCreateRun]
  · intro ws u id vo gr gd pr pd
    simp [productionsBuildRun]
  · intro ws u id f tok resp
    simp [productionsDeleteRun]
  · intro ws u id resp dec
    simp [productionsStatusRun]
  · intro k u t l resp dec hk
    simp [assetsListRun, hk]
  · intro k u sf l resp dec hk
    simp [productionsListRun, hk]
  · intro k u n t c sf sr dr resp dec hk
    simp [productionsCreateRun, hk]
  · intro k u id resp dec hk
    cases resp with
    | transportError c => simp [assetsGetRun, hk]
    | response s b =>
      by_cases hs : s ≠ 200 <;> simp [assetsGetRun, hk, hs]
  · intro k u id tok resp hk
    cases resp with
    | transportError c => simp [assetsDeleteRun, hk]
    | response s b =>
      by_cases hs : s ≠ 200 <;> simp [assetsDeleteRun, hk, hs]
  · intro k u id resp pb hk
    cases resp with
    | transportError c => simp [productionsGetRun, hk]
    | response s b =>
      by_cases hs : s ≠ 200 <;> simp [productionsGetRun, hk, hs]
  · intro k u id vo gr gd pr pd hk
    cases gr with
    | transportError c => simp [productionsBuildRun, hk]
    | response gs gb =>
      by_cases hgs : gs ≠ 200
      · simp [productionsBuildRun, hk, hgs]
      · cases hsp : gd.spec with
        | none => simp [productionsBuildRun, hk, hgs, hsp]
        | some m =>
          by_cases hv : vo
          · simp [productionsBuildRun, hk, hgs, hsp, hv]
          · cases pr with
            | transportError c => simp [productionsBuildRun, hk, hgs, hsp, hv]
            | response ps pb =>
              by_cases hps : ps = 202
              · simp [productionsBuildRun, hk, hgs, hsp, hv, hps]
              · by_cases h9 : ps = 409 <;>
                  simp [productionsBuildRun, hk, hgs, hsp, hv, hps, h9]
  · intro k u id tok resp hk
    cases resp with
    | transportError c => simp [productionsDeleteRun, hk]
    | response s b =>
      by_cases hs : s ≠ 200 <;> simp [productionsDeleteRun, hk, hs]
  · intro k u id resp dec hk
    cases resp with
    | transportError c => simp [productionsStatusRun, hk]
    | response s b =>
      by_cases hs : s ≠ 200 <;> simp [productionsStatusRun, hk, hs]
  · intro ws u fp tf nf ss oe cr dec ur
    simp [assetsUploadRun]
  · intro k u fp tf nf ss oe cr dec ur hk
    simp [assetsUploadRun, hk]

/-- C2 witness: the amended theorem applied at concrete inputs. -/
theorem c2_failFast_witness :
    assetsListRun "" "ws_1" "https://api" "" 20 (.response 200 "") (.ok { })
      = { requests := [], printed := [], err := some notAuthenticatedMsg }
    ∧ assetsListRun "sk_live_key" "" "https://api" "" 20 (.response 200 "") (.ok { })
      = { requests := [], printed := [], err := some noWorkspaceMsg }
    ∧ (assetsGetRun "sk_live_key" "" "https://api" "asset_x"
        (.response 200 "") { }).requests ≠ []
    ∧ assetsUploadRun "sk_live_key" "" "https://api" "video.mp4" "" "" (.ok 100)
        none (.response 201 "") { } (.response 200 "")
      = { requests := [], printed := [], err := some noWorkspaceMsg } :=
  ⟨c2_failFast.1 "ws_1" "https://api" "" 20 (.response 200 "") (.ok { }),
   c2_failFast.2.2.2.2.2.2.2.2.2.1 "sk_live_key" "https://api" "" 20
      (.response 200 "") (.ok { }) (by decide),
   c2_failFast.2.2.2.2.2.2.2.2.2.2.2.2.1 "sk_live_key" "https://api" "asset_x"
      (.response 200 "") { } (by decide),
   c2_failFast.2.2.2.2.2.2.2.2.2.2.2.2.2.2.2.2.2.2.2 "sk_live_key" "https://api"
      "video.mp4" "" "" (.ok 100) none (.response 201 "") { } (.response 200 "")
      (by decide)⟩
